import Mathlib

/-!
Verification development for the tfgrpo MCP experience store
(src/src/episode.py, src/src/storage.py, src/src/summarizer.py,
src/src/server.py), shallowly embedded in Lean 4.

Conventions of the embedding:
* Python strings are Lean `String`; character-level helpers work on
  `List Char` by structural recursion so that concrete inputs evaluate
  by kernel reduction.
* Python floats are embedded as rationals where they are stored data
  (embedding vectors) and as real numbers where square roots arise
  (cosine similarity, scores).
* Fallible remote calls (embedding generation, experience extraction)
  are inputs to the embedded functions, given as explicit outcome
  values, since the code treats them as opaque calls wrapped in
  try/except.
* The wall clock is an explicit `PyTime` argument.
-/

/-- Boolean test that the first list is a prefix of the second. -/
def isPre : List Char → List Char → Bool
  | [], _ => true
  | _ :: _, [] => false
  | a :: as, b :: bs => a == b && isPre as bs

/-- Boolean substring test: `hasSub hay needle` models the Python
expression `needle in hay` on strings. -/
def hasSub : List Char → List Char → Bool
  | [], needle => isPre needle []
  | c :: t, needle => isPre needle (c :: t) || hasSub t needle

/-- Boolean suffix test on character lists. -/
def isSuf (needle hay : List Char) : Bool :=
  isPre needle.reverse hay.reverse

/-- Lower-case a string character by character, modelling `str.lower`
for the ASCII inputs the code deals with. -/
def lowerStr (s : String) : String :=
  String.mk (s.toList.map Char.toLower)

/-- Auxiliary splitter: cut a character list at every character
satisfying `p`, keeping empty segments. -/
def splitByAux (p : Char → Bool) : List Char → List Char → List (List Char)
  | [], acc => [acc.reverse]
  | c :: cs, acc =>
    if p c then acc.reverse :: splitByAux p cs []
    else splitByAux p cs (c :: acc)

/-- Characters treated as whitespace by Python `str.split()` and
`str.strip()` (ASCII range). -/
def isPySpace (c : Char) : Bool :=
  c == ' ' || c == '\t' || c == '\n' || c == '\r' || c == '\x0b' || c == '\x0c'

/-- Model of the Python call `s.split()`: split on whitespace runs and
drop empty pieces. -/
def pySplit (s : String) : List String :=
  ((splitByAux isPySpace s.toList []).map String.mk).filter (fun w => w ≠ "")

/-- Model of the Python call `s.split(sep)` for a one-character
separator: split at each occurrence, keeping empty pieces. -/
def pySplitChar (sep : Char) (s : String) : List String :=
  (splitByAux (fun c => c == sep) s.toList []).map String.mk

/-- Model of the Python call `s.strip()`: remove leading and trailing
whitespace. -/
def pyStrip (s : String) : String :=
  String.mk (((s.toList.dropWhile isPySpace).reverse.dropWhile isPySpace).reverse)

/-- Model of the Python slice `l[-n:]` for a nonnegative `n`. Python
slicing makes `l[-0:]` the whole list, which the quirk branch below
reproduces. -/
def pyTakeLast {α : Type} (l : List α) (n : ℕ) : List α :=
  if n = 0 then l else l.drop (l.length - n)

/-- Model of the Python call `sep.join(l)`. -/
def joinSep (sep : String) : List String → String
  | [] => ""
  | [x] => x
  | x :: y :: xs => x ++ sep ++ joinSep sep (y :: xs)

/-- Wall-clock instant as `datetime.now()` exposes it, with the fields
the code formats. -/
structure PyTime where
  year : ℕ
  month : ℕ
  day : ℕ
  hour : ℕ
  minute : ℕ
  second : ℕ
  microsecond : ℕ
deriving DecidableEq

/-- Zero-pad a number to two digits, as `strftime` field formatting
does for month, day, hour, minute and second. -/
def pad2 (n : ℕ) : String :=
  if n < 10 then "0" ++ toString n else toString n

/-- Zero-pad a number to four digits, as `strftime` `%Y` does. -/
def pad4 (n : ℕ) : String :=
  if n < 10 then "000" ++ toString n
  else if n < 100 then "00" ++ toString n
  else if n < 1000 then "0" ++ toString n
  else toString n

/-- Model of `datetime.now().strftime("%Y%m%d_%H%M%S")` used by
`ExperienceStorage.save` (src/src/storage.py line 77). The
microsecond field is not part of the format. -/
def fmtCompact (t : PyTime) : String :=
  pad4 t.year ++ pad2 t.month ++ pad2 t.day ++ "_" ++
    pad2 t.hour ++ pad2 t.minute ++ pad2 t.second

/-! ## Model of src/src/episode.py -/

/-- Attempt dataclass (src/src/episode.py lines 12-18). -/
structure Attempt where
  short_desc : String
  error_type : Option String
  error_line : Option String
  success : Bool
deriving DecidableEq

/-- Episode dataclass (src/src/episode.py lines 21-30). -/
structure Episode where
  id : String
  task : String
  created_at : String
  attempts : List Attempt
  final_result : Option String
  final_success : Option Bool
  notes : Option String
deriving DecidableEq

/-- Episode.add_attempt (src/src/episode.py lines 32-40): append a
pre-processed attempt. -/
def Episode.add_attempt (e : Episode) (short_desc : String)
    (error_type error_line : Option String) (success : Bool) : Episode :=
  { e with attempts := e.attempts ++ [⟨short_desc, error_type, error_line, success⟩] }

/-- Episode.get_failures (src/src/episode.py lines 42-45): filter the
non-successful attempts and take the Python slice `failed[-limit:]`. -/
def Episode.get_failures (e : Episode) (limit : ℕ) : List Attempt :=
  pyTakeLast (e.attempts.filter (fun a => !a.success)) limit

/-- Episode.get_success (src/src/episode.py lines 47-52): last attempt
with `success` set, scanning from the end. -/
def Episode.get_success (e : Episode) : Option Attempt :=
  e.attempts.reverse.find? (fun a => a.success)

/-- Shape of the minimal structured payload built by
Episode.to_kimi_input (src/src/episode.py lines 54-69). -/
structure KimiInput where
  task : String
  failures : List (String × String)
  success : Option (String × String)
deriving DecidableEq

/-- Episode.to_kimi_input (src/src/episode.py lines 54-69). -/
def Episode.to_kimi_input (e : Episode) : KimiInput :=
  let failures := e.get_failures 5
  let success := e.get_success
  { task := e.task
    failures := failures.map (fun f => (f.short_desc, f.error_type.getD "unknown"))
    success := success.map (fun s => (s.short_desc, e.final_result.getD "completed")) }

/-- EpisodeTracker state (src/src/episode.py lines 72-76): the
in-memory dict of active episodes, modelled as an association list. -/
structure EpisodeTracker where
  episodes : List (String × Episode)
deriving DecidableEq

/-- EpisodeTracker.get (src/src/episode.py lines 89-91). -/
def EpisodeTracker.get (t : EpisodeTracker) (episode_id : String) : Option Episode :=
  (t.episodes.find? (fun p => p.1 == episode_id)).map (fun p => p.2)

/-- EpisodeTracker.end (src/src/episode.py lines 93-103), named end1
because `end` is a Lean keyword: set the final fields, delete the id
from the dict, and return the detached episode. Dict deletion is
modelled by removing every entry with that key, which agrees with
`del` under the unique-key semantics of a dict. -/
def EpisodeTracker.end1 (t : EpisodeTracker) (episode_id result : String)
    (success : Bool) (notes : Option String) : Option Episode × EpisodeTracker :=
  match t.episodes.find? (fun p => p.1 == episode_id) with
  | none => (none, t)
  | some p =>
    let ep := p.2
    let ended := { ep with
      final_result := some result
      final_success := some success
      notes := notes }
    (some ended, ⟨t.episodes.filter (fun q => !(q.1 == episode_id))⟩)

/-! ### extract_error_summary (src/src/episode.py lines 106-139)

The source uses `Path(...).name` on line 136, but `episode.py` never
imports `Path` (its imports are `re`, `dataclasses`, `datetime` and
`typing` only), so reaching that line raises `NameError` at run time.
The embedding therefore returns `Except`: reaching line 136 yields the
`NameError` the interpreter raises there. -/

/-- Python exceptions the embedded fragment can raise. -/
inductive PyErr where
  | nameError (missing : String)
deriving DecidableEq

/-- Word character test for the regex class `\w` on the ASCII inputs
the code deals with. -/
def isWordChar (c : Char) : Bool :=
  c.isAlphanum || c == '_'

/-- Model of `re.match` for the anchored regex
`^(\w+Error|^\w+Exception):` of src/src/episode.py line 123. Because
`:` is not a word character, the group necessarily captures the whole
maximal word-character prefix of the line; the prefix must keep at
least one character before the `Error`/`Exception` tail and be
followed immediately by a colon. Returns the captured group. -/
def matchErrorKind (s : String) : Option String :=
  let cs := s.toList
  let p := cs.takeWhile isWordChar
  match cs.drop p.length with
  | ':' :: _ =>
    if (isSuf "Error".toList p && decide (6 ≤ p.length)) ||
        (isSuf "Exception".toList p && decide (10 ≤ p.length)) then
      some (String.mk p)
    else none
  | _ => none

/-- Attempt to match the regex `File "([^"]+)", line (\d+)` of
src/src/episode.py line 132 at the very start of the character list;
returns the two captured groups. -/
def fileLocHere (cs : List Char) : Option (String × String) :=
  if isPre "File \"".toList cs then
    let rest := cs.drop 6
    let path := rest.takeWhile (fun c => c ≠ '"')
    if path.isEmpty then none
    else
      let rest2 := rest.drop path.length
      if isPre "\", line ".toList rest2 then
        let digits := (rest2.drop 8).takeWhile Char.isDigit
        if digits.isEmpty then none
        else some (String.mk path, String.mk digits)
      else none
  else none

/-- Model of `re.search` for the same regex: try every start position
from the left and return the first match. -/
def fileLocSearch : List Char → Option (String × String)
  | [] => none
  | c :: t =>
    match fileLocHere (c :: t) with
    | some g => some g
    | none => fileLocSearch t

/-- Scan of the last ten lines, reversed, each stripped, for the first
error-kind match (src/src/episode.py lines 122-128). -/
def findErrorKind (lines : List String) : Option String :=
  (pyTakeLast lines 10).reverse.findSome? (fun line => matchErrorKind (pyStrip line))

/-- extract_error_summary (src/src/episode.py lines 106-139). The
forward scan for a traceback frame (lines 131-137) raises `NameError`
on its first match because `Path` is unbound in the module, so the
function only returns normally when no line matches the file-location
regex. -/
def extract_error_summary (stderr : String) :
    Except PyErr (Option String × Option String) :=
  if stderr = "" then .ok (none, none)
  else
    let lines := pySplitChar '\n' (pyStrip stderr)
    let error_type := findErrorKind lines
    match lines.findSome? (fun line => fileLocSearch line.toList) with
    | some _ => .error (.nameError "Path")
    | none => .ok (error_type, none)

/-! ## Model of src/src/storage.py -/

/-- Experience record as the dict the server builds and the store
persists (src/src/server.py lines 171-180, src/src/storage.py). The
`embedding` field distinguishes a missing key (outer `none`), a key
stored as JSON null (`some none`) and a stored vector
(`some (some v)`); vector components are the rationals that the
floating-point values denote. -/
structure Exp where
  id : String
  task : String
  pattern : String
  keywords : List String
  insight : String
  attempts_count : ℕ
  result : String
  created_at : String
  embedding : Option (Option (List ℚ))
deriving DecidableEq

/-- Outcome of the embedding step during a save, as seen at the call
site in src/src/storage.py lines 82-94: no provider could be built
(`OPENROUTER_API_KEY` missing, lines 65-73), the remote call raised,
or the remote call returned a vector. -/
inductive EmbedOutcome where
  | noProvider
  | failed
  | ok (v : List ℚ)
deriving DecidableEq

/-- Search text built by save (src/src/storage.py lines 84-89):
`" ".join([task, pattern, insight, " ".join(keywords)])`. -/
def saveSearchText (e : Exp) : String :=
  joinSep " " [e.task, e.pattern, e.insight, joinSep " " e.keywords]

/-- Effect of the embedding branch of save on the record
(src/src/storage.py lines 82-94): when no provider exists the dict is
left untouched (no `embedding` key is created); on failure the key is
set to null; on success it is set to the vector. -/
def applyEmbedding : EmbedOutcome → Exp → Exp
  | .noProvider, e => e
  | .failed, e => { e with embedding := some none }
  | .ok v, e => { e with embedding := some (some v) }

/-- Filename assigned by save (src/src/storage.py lines 77-78):
`exp_{now:%Y%m%d_%H%M%S}.json`. -/
def saveFilename (t : PyTime) : String :=
  "exp_" ++ fmtCompact t ++ ".json"

/-- One file of the corpus directory: name, parsed content, and the
modification time `get_recent` sorts by. -/
structure StoredFile where
  name : String
  record : Exp
  mtime : ℕ
deriving DecidableEq

/-- Corpus directory state. -/
abbrev Store := List StoredFile

/-- ExperienceStorage.save (src/src/storage.py lines 75-99): derive
the filename from the clock, run the embedding branch, and write the
whole file. Writing with mode "w" replaces any existing file of the
same name, which the filter models. Returns the filename and the new
directory state. -/
def ExperienceStorage.save (store : Store) (now : PyTime) (mtime : ℕ)
    (emb : EmbedOutcome) (experience : Exp) : String × Store :=
  let filename := saveFilename now
  let exp1 := applyEmbedding emb experience
  (filename, store.filter (fun f => f.name ≠ filename) ++ [⟨filename, exp1, mtime⟩])

/-- cosine_similarity (src/src/storage.py lines 17-19):
`np.dot(a, b) / (np.linalg.norm(a) * np.linalg.norm(b) + 1e-8)`.
The vectors compared by the code always have the same length
(embeddings of one model), which the pointwise `zipWith` relies on. -/
noncomputable def cosine_similarity (a b : List ℚ) : ℝ :=
  ((((a.zip b).map (fun p => p.1 * p.2)).sum : ℚ) : ℝ) /
    (Real.sqrt ((a.map (fun x => ((x : ℝ)) ^ 2)).sum) *
      Real.sqrt ((b.map (fun x => ((x : ℝ)) ^ 2)).sum) + 1e-8)

/-- Haystack text of a record for keyword matching
(src/src/storage.py lines 141-146):
`(task + " " + pattern + " " + insight + " " + " ".join(keywords)).lower()`. -/
def expSearchText (e : Exp) : String :=
  lowerStr (e.task ++ " " ++ e.pattern ++ " " ++ e.insight ++ " " ++ joinSep " " e.keywords)

/-- Query tokens (src/src/storage.py lines 110-111):
`set(query.lower().split())`, as a duplicate-free list. -/
def queryWords (query : String) : List String :=
  (pySplit (lowerStr query)).dedup

/-- Truthiness of `exp.get("embedding")` (src/src/storage.py line
134): a stored, non-null, non-empty vector. -/
def embTruthy (e : Exp) : Bool :=
  match e.embedding with
  | some (some v) => !v.isEmpty
  | _ => false

/-- The stored vector, in the branch where `embTruthy` holds. -/
def embVec (e : Exp) : List ℚ :=
  match e.embedding with
  | some (some v) => v
  | _ => []

/-- Score of one record for one query (src/src/storage.py lines
131-155): start from the semantic term when it applies, then the loop
over the query words adds the keyword boosts. -/
noncomputable def searchScore (has_embeddings : Bool) (query : String)
    (query_embedding : List ℚ) (e : Exp) : ℝ :=
  let score0 : ℝ :=
    if has_embeddings && embTruthy e then
      max 0 (cosine_similarity query_embedding (embVec e) * 10)
    else 0
  let text := expSearchText e
  let boost : ℝ := if has_embeddings then 1 / 2 else 1
  (queryWords query).foldl
    (fun score word =>
      if hasSub text.toList word.toList then
        score + boost +
          (if hasSub (" " ++ text ++ " ").toList (" " ++ word ++ " ").toList then boost
           else 0)
      else score)
    score0

/-- Keyword boost of a single query word against a haystack
(src/src/storage.py lines 148-155): the boost once for a substring
occurrence, and once more for a whole-word occurrence between the
synthetic boundary spaces. -/
noncomputable def keywordBoost (boost : ℝ) (text word : String) : ℝ :=
  if hasSub text.toList word.toList then
    boost +
      (if hasSub (" " ++ text ++ " ").toList (" " ++ word ++ " ").toList then boost
       else 0)
  else 0

/-- Total keyword contribution of a query against a record: the sum
of the per-word boosts over the distinct query words. -/
noncomputable def keywordSum (boost : ℝ) (query : String) (e : Exp) : ℝ :=
  ((queryWords query).map (keywordBoost boost (expSearchText e))).sum

/-- ExperienceStorage.search (src/src/storage.py lines 101-164). The
outcome of the query-embedding step (lines 117-124) enters as
`qEmbed`: `none` covers both a missing provider and a raised remote
call, in which case `has_embeddings` stays false. Records with
positive score are sorted by score descending — stably, as Python
`list.sort` is stable — and the first `limit` are returned. The
Python `(score, exp)` pairs are modelled by sorting the records with
the score as key. -/
noncomputable def ExperienceStorage.search (store : Store) (query : String)
    (limit : ℕ) (semantic : Bool) (qEmbed : Option (List ℚ)) : List Exp :=
  let has_embeddings := semantic && qEmbed.isSome
  let qv := qEmbed.getD []
  let cands := (store.map (fun f => f.record)).filter
    (fun e => decide (0 < searchScore has_embeddings query qv e))
  (cands.insertionSort
    (fun a b =>
      searchScore has_embeddings query qv b ≤ searchScore has_embeddings query qv a)).take
    limit

/-- ExperienceStorage.get_recent (src/src/storage.py lines 166-182):
sort the files by modification time descending, keep `limit`, parse
each. Sorted with a stable sort, as Python `sorted` is stable. -/
def ExperienceStorage.get_recent (store : Store) (limit : ℕ) : List Exp :=
  ((store.insertionSort (fun a b => b.mtime ≤ a.mtime)).take limit).map
    (fun f => f.record)

/-! ## Model of the end_episode branch of src/src/server.py

The extraction collaborator `extract_experience`
(src/src/summarizer.py lines 46-101) is a remote LLM call; its outcome
enters the handler as an explicit value: it raises `ValueError` when
`OPENROUTER_API_KEY` is missing, `RuntimeError` (caught by the generic
`except Exception` arm) on call or parse failure, or returns the
extracted fields. -/

/-- Outcome of the `extract_experience` call as the handler observes
it (src/src/server.py lines 167-212). -/
inductive ExtractOutcome where
  | ok (pattern : String) (keywords : List String) (insight : String)
  | valueError (msg : String)
  | otherError (ename msg : String)
deriving DecidableEq

/-- Reply text of the unknown-episode branch (src/src/server.py line
159). -/
def notFoundText (episode_id : String) : String :=
  "Error: Episode " ++ episode_id ++ " not found"

/-- Reply text of the successful extraction branch (src/src/server.py
lines 184-192). -/
def savedText (filename pat : String) (kws : List String) (ins : String) : String :=
  "Episode complete! ✓\n\nExperience extracted and saved to " ++ filename ++
    ":\nPattern: " ++ pat ++ "\nKeywords: " ++ joinSep ", " kws ++
    "\nInsight: " ++ ins

/-- Reply text of the `except ValueError` branch (src/src/server.py
lines 193-203). -/
def configFailText (msg : String) : String :=
  "Episode ended but extraction failed: " ++ msg ++
    "\n\nThe episode was completed successfully, but experience extraction requires:\n- OPENROUTER_API_KEY set in your MCP server environment\n\nYour episode data was NOT saved. Please fix the configuration and try again."

/-- Reply text of the `except Exception` branch (src/src/server.py
lines 204-212). -/
def extractFailText (ename msg : String) : String :=
  "Episode ended but extraction failed: " ++ ename ++ ": " ++ msg ++
    "\n\nThe episode was completed successfully, but experience extraction encountered an error.\nYour episode data was NOT saved. See error details above."

/-- Reply text of the failed-episode branch (src/src/server.py lines
215-218). -/
def endedFailText (result : String) : String :=
  "Episode ended: " ++ result ++ "\n(No experience extracted - episode failed)"

/-- Server state the end_episode handler touches: the tracker and the
store directory. -/
structure ServerState where
  tracker : EpisodeTracker
  store : Store
deriving DecidableEq

/-- The end_episode branch of call_tool (src/src/server.py lines
151-218): end the episode in the tracker first; then, on a successful
episode, run extraction and either save the experience built from the
extracted fields or report the failure with the data explicitly not
saved. -/
def end_episode (st : ServerState) (episode_id result : String) (success : Bool)
    (notes : Option String) (extract : ExtractOutcome) (now : PyTime) (mtime : ℕ)
    (emb : EmbedOutcome) : String × ServerState :=
  match st.tracker.end1 episode_id result success notes with
  | (none, t1) => (notFoundText episode_id, { st with tracker := t1 })
  | (some episode, t1) =>
    if success then
      match extract with
      | .ok pat kws ins =>
        let experience : Exp :=
          { id := episode.id
            task := episode.task
            pattern := pat
            keywords := kws
            insight := ins
            attempts_count := episode.attempts.length
            result := result
            created_at := episode.created_at
            embedding := none }
        let saved := ExperienceStorage.save st.store now mtime emb experience
        (savedText saved.1 pat kws ins, ⟨t1, saved.2⟩)
      | .valueError msg => (configFailText msg, ⟨t1, st.store⟩)
      | .otherError ename msg => (extractFailText ename msg, ⟨t1, st.store⟩)
    else (endedFailText result, ⟨t1, st.store⟩)

/-! ## General lemmas -/

/-- Folding additive contributions over a list equals the initial
value plus the sum of the contributions. -/
lemma foldl_add_map {α : Type} (f : α → ℝ) (init : ℝ) (l : List α) :
    l.foldl (fun s w => s + f w) init = init + (l.map f).sum := by
  induction l generalizing init with
  | nil => simp
  | cons a t ih => simp [ih, add_assoc]

/-- One step of the keyword loop adds exactly the per-word boost. -/
lemma keyword_step_eq (boost : ℝ) (text : String) (s : ℝ) (w : String) :
    (if hasSub text.toList w.toList then
        s + boost +
          (if hasSub (" " ++ text ++ " ").toList (" " ++ w ++ " ").toList then boost
           else 0)
      else s)
    = s + keywordBoost boost text w := by
  unfold keywordBoost
  split_ifs <;> ring

/-- The search score is the semantic term plus the keyword sum. -/
lemma searchScore_eq (h : Bool) (q : String) (qv : List ℚ) (e : Exp) :
    searchScore h q qv e
      = (if h && embTruthy e then max 0 (cosine_similarity qv (embVec e) * 10) else 0)
        + keywordSum (if h then 1 / 2 else 1) q e := by
  unfold searchScore
  simp only [keyword_step_eq, foldl_add_map]
  rfl

/-- With semantic scoring inactive the score is the keyword sum at
boost one. -/
lemma searchScore_false (q : String) (qv : List ℚ) (e : Exp) :
    searchScore false q qv e = keywordSum 1 q e := by
  rw [searchScore_eq]
  simp

/-- With semantic scoring active on a record with a non-empty stored
vector, the score is the clamped scaled cosine plus the keyword sum at
boost one half. -/
lemma searchScore_true_emb (q : String) (qv v : List ℚ) (e : Exp)
    (hemb : e.embedding = some (some v)) (hne : v ≠ []) :
    searchScore true q qv e
      = max 0 (cosine_similarity qv v * 10) + keywordSum (1 / 2) q e := by
  rw [searchScore_eq]
  have h1 : embTruthy e = true := by
    simp [embTruthy, hemb, List.isEmpty_iff, hne]
  have h2 : embVec e = v := by simp [embVec, hemb]
  rw [h1, h2]
  simp

/-! ## Claim theorems -/

/-- Fixture record for the C1 witness. -/
def c1Exp : Exp :=
  { id := "e1", task := "timeout bug", pattern := "added timeout",
    keywords := ["timeout"], insight := "set deadline", attempts_count := 1,
    result := "ok", created_at := "t", embedding := some (some [1]) }

/-- C1: when semantic scoring is active for the call and the record
has a non-empty embedding, the total score is
`max 0 (cosineSimilarity * 10)` plus, over the distinct lower-cased
query tokens, a boost of one half per substring occurrence and one
half more per whole-word occurrence; when semantic scoring is not
active the total is the same keyword sum at boost one with no semantic
term. -/
theorem c1_hybrid_score (q : String) (qv v : List ℚ) (e : Exp)
    (hemb : e.embedding = some (some v)) (hne : v ≠ []) :
    searchScore true q qv e
        = max 0 (cosine_similarity qv v * 10) + keywordSum (1 / 2) q e
    ∧ searchScore false q qv e = keywordSum 1 q e :=
  ⟨searchScore_true_emb q qv v e hemb hne, searchScore_false q qv e⟩

/-- Witness for C1 at a concrete record and query. -/
theorem c1_hybrid_score_witness :
    searchScore true "timeout errors" [1] c1Exp
        = max 0 (cosine_similarity [1] [1] * 10)
          + keywordSum (1 / 2) "timeout errors" c1Exp
    ∧ searchScore false "timeout errors" [1] c1Exp
        = keywordSum 1 "timeout errors" c1Exp :=
  c1_hybrid_score "timeout errors" [1] [1] c1Exp rfl (by decide)

/-- C3: the function is claimed never to raise, but the forward scan
for a traceback frame reaches the unbound name `Path`
(src/src/episode.py line 136; `pathlib` is never imported in the
module), so any input containing a matching frame raises `NameError`.
Inputs matching neither pattern do return the null pair. -/
theorem c3_extract_error_summary_raises :
    extract_error_summary "  File \"a.py\", line 7" = Except.error (.nameError "Path")
    ∧ extract_error_summary "garbage with no pattern" = Except.ok (none, none) :=
  ⟨rfl, rfl⟩

/-- C4: on the spec example the error-kind scan does find
`TimeoutError` and the frame scan does find `main.py` line `42`, but
the function raises `NameError` at the frame-formatting step instead
of returning the pair; on the empty string it returns the null pair as
claimed. -/
theorem c4_extract_error_summary_example :
    extract_error_summary
        "Traceback...\n  File \"main.py\", line 42, in <module>\nTimeoutError: deadline exceeded"
      = Except.error (.nameError "Path")
    ∧ findErrorKind
        (pySplitChar '\n'
          (pyStrip
            "Traceback...\n  File \"main.py\", line 42, in <module>\nTimeoutError: deadline exceeded"))
      = some "TimeoutError"
    ∧ (pySplitChar '\n'
          (pyStrip
            "Traceback...\n  File \"main.py\", line 42, in <module>\nTimeoutError: deadline exceeded")).findSome?
          (fun line => fileLocSearch line.toList)
      = some ("main.py", "42")
    ∧ extract_error_summary "" = Except.ok (none, none) :=
  ⟨rfl, rfl, rfl, rfl⟩

/-- Save instant used by the C2 counterexample. -/
def c2time1 : PyTime := ⟨2024, 1, 2, 3, 4, 5, 0⟩

/-- A later instant within the same clock second. -/
def c2time2 : PyTime := ⟨2024, 1, 2, 3, 4, 5, 500000⟩

/-- First record saved in the C2 counterexample. -/
def c2rec1 : Exp :=
  { id := "ep1", task := "first", pattern := "", keywords := [], insight := "",
    attempts_count := 0, result := "", created_at := "a", embedding := none }

/-- Second record saved in the C2 counterexample. -/
def c2rec2 : Exp :=
  { id := "ep2", task := "second", pattern := "", keywords := [], insight := "",
    attempts_count := 0, result := "", created_at := "b", embedding := none }

/-- C2 counterexample: two distinct save calls within the same clock
second are assigned the same file identifier, and after the two saves
only the second record remains in the corpus — the second save
overwrote the first. -/
theorem c2_counterexample :
    c2time1 ≠ c2time2
    ∧ saveFilename c2time1 = saveFilename c2time2
    ∧ ((ExperienceStorage.save
          (ExperienceStorage.save [] c2time1 0 EmbedOutcome.noProvider c2rec1).2
          c2time2 1 EmbedOutcome.noProvider c2rec2).2.map (fun f => f.record))
        = [c2rec2] := by
  refine ⟨by decide, rfl, by rfl⟩

/-- C2 amended: identifiers are derived from the clock at one-second
resolution, so two save calls whose formatted timestamps differ get
distinct file identifiers; calls within the same formatted second
collide (see the counterexample). -/
theorem c2_amended_distinct_ids (t1 t2 : PyTime)
    (h : fmtCompact t1 ≠ fmtCompact t2) :
    saveFilename t1 ≠ saveFilename t2 := by
  intro hf
  apply h
  have hd := congrArg String.data hf
  simp only [saveFilename, String.data_append] at hd
  exact String.ext (List.append_cancel_left (List.append_cancel_right hd))

/-- Witness for the amended C2 at two instants one second apart. -/
theorem c2_amended_distinct_ids_witness :
    saveFilename ⟨2024, 1, 2, 3, 4, 5, 0⟩ ≠ saveFilename ⟨2024, 1, 2, 3, 4, 6, 0⟩ :=
  c2_amended_distinct_ids ⟨2024, 1, 2, 3, 4, 5, 0⟩ ⟨2024, 1, 2, 3, 4, 6, 0⟩ (by decide)

/-- Draft record used by the C6 counterexample and witness: built by
the server, so it carries no embedding key. -/
def c6Draft : Exp :=
  { id := "e", task := "t", pattern := "p", keywords := ["k"], insight := "i",
    attempts_count := 1, result := "r", created_at := "c", embedding := none }

/-- Save instant used by the C6 counterexample. -/
def c6time : PyTime := ⟨2024, 5, 6, 7, 8, 9, 0⟩

/-- C6 counterexample: when no embedding provider is available the
persisted record has no embedding key at all (outer `none`), which is
not the stored-null value `some none` the claim asserts for this
case. -/
theorem c6_counterexample :
    ((ExperienceStorage.save [] c6time 0 EmbedOutcome.noProvider c6Draft).2.map
        (fun f => f.record.embedding)) = [none]
    ∧ (none : Option (Option (List ℚ))) ≠ some none := by
  exact ⟨rfl, by decide⟩

/-- C6 amended: save always succeeds and never fails on account of the
embedding step — the filename is returned and the record is persisted
with its textual fields unchanged; on embedding failure the record
carries embedding null, with no provider the embedding key stays
absent, and on success it carries the vector. -/
theorem c6_amended_save_durable (store : Store) (t : PyTime) (m : ℕ)
    (emb : EmbedOutcome) (e : Exp) (h : e.embedding = none) :
    (ExperienceStorage.save store t m emb e).1 = saveFilename t
    ∧ (⟨saveFilename t, applyEmbedding emb e, m⟩ : StoredFile)
        ∈ (ExperienceStorage.save store t m emb e).2
    ∧ { applyEmbedding emb e with embedding := none } = e
    ∧ (emb = EmbedOutcome.failed → (applyEmbedding emb e).embedding = some none)
    ∧ (emb = EmbedOutcome.noProvider → (applyEmbedding emb e).embedding = none)
    ∧ (∀ v, emb = EmbedOutcome.ok v → (applyEmbedding emb e).embedding = some (some v)) := by
  refine ⟨rfl, ?_, ?_, ?_, ?_, ?_⟩
  · exact List.mem_append_right _ (List.mem_singleton_self _)
  · cases e
    cases emb <;> simp_all [applyEmbedding]
  · intro he; subst he; rfl
  · intro he; subst he; exact h
  · intro v he; subst he; rfl

/-- Witness for the amended C6: a failed embedding call still persists
the record, now carrying embedding null. -/
theorem c6_amended_save_durable_witness :
    (applyEmbedding EmbedOutcome.failed c6Draft).embedding = some none :=
  (c6_amended_save_durable [] c6time 0 EmbedOutcome.failed c6Draft rfl).2.2.2.1 rfl

/-- Failed attempt used by the C9 counterexample. -/
def c9Attempt : Attempt := ⟨"tried a fix", none, none, false⟩

/-- Episode with one failed attempt, used by the C9 counterexample. -/
def c9Episode : Episode := ⟨"ep", "task", "now", [c9Attempt], none, none, none⟩

/-- C9 counterexample: at limit zero the claim demands the empty list
(the last zero failures), but the Python slice `failed[-0:]` is the
whole failure list, so the call returns the failed attempt. -/
theorem c9_counterexample :
    Episode.get_failures c9Episode 0 ≠ []
    ∧ Episode.get_failures c9Episode 0 = [c9Attempt] := by
  exact ⟨by decide, rfl⟩

/-- C9 amended: for every limit n ≥ 1, get_failures returns exactly
the last n attempts whose success flag is false — a suffix of the
failure subsequence, of length `min n (number of failures)`, in
original insertion order — and never includes a successful attempt. -/
theorem c9_amended_get_failures (e : Episode) (n : ℕ) (hn : 1 ≤ n) :
    (Episode.get_failures e n).length
        = min n (e.attempts.filter (fun a => !a.success)).length
    ∧ (Episode.get_failures e n).IsSuffix (e.attempts.filter (fun a => !a.success))
    ∧ ∀ a ∈ Episode.get_failures e n, a.success = false := by
  have hne : n ≠ 0 := by omega
  unfold Episode.get_failures pyTakeLast
  rw [if_neg hne]
  refine ⟨?_, List.drop_suffix _ _, ?_⟩
  · rw [List.length_drop]
    omega
  · intro a ha
    have hmem : a ∈ e.attempts.filter (fun a => !a.success) :=
      (List.drop_suffix _ _).subset ha
    have := (List.mem_filter.1 hmem).2
    simpa using this

/-- Witness for the amended C9 at the one-failure episode and limit
one. -/
theorem c9_amended_get_failures_witness :
    (Episode.get_failures c9Episode 1).length
      = min 1 (c9Episode.attempts.filter (fun a => !a.success)).length :=
  (c9_amended_get_failures c9Episode 1 (by decide)).1

/-- A substring of a list is still a substring after prepending. -/
lemma hasSub_append_left (p l n : List Char) (h : hasSub l n = true) :
    hasSub (p ++ l) n = true := by
  induction p with
  | nil => simpa
  | cons c t ih => simp [hasSub, ih]

/-- A substring of a string is still a substring after prepending a
string. -/
lemma hasSub_str_append (x s n : String) (h : hasSub s.toList n.toList = true) :
    hasSub (x ++ s).toList n.toList = true := by
  have hx : (x ++ s).toList = x.toList ++ s.toList := String.data_append x s
  rw [hx]
  exact hasSub_append_left _ _ _ h

/-- The configuration-failure reply contains the not-saved notice. -/
lemma configFailText_notSaved (msg : String) :
    hasSub (configFailText msg).toList "Your episode data was NOT saved".toList = true := by
  unfold configFailText
  exact hasSub_str_append _ _ _ (by decide)

/-- The generic extraction-failure reply contains the not-saved
notice. -/
lemma extractFailText_notSaved (ename msg : String) :
    hasSub (extractFailText ename msg).toList "Your episode data was NOT saved".toList = true := by
  unfold extractFailText
  exact hasSub_str_append _ _ _ (by decide)

/-- Episode registered in the demonstration tracker used by the C7 and
C10 witnesses. -/
def demoEpisode : Episode :=
  { id := "ep_1", task := "fix bug", created_at := "now", attempts := [],
    final_result := none, final_success := none, notes := none }

/-- Demonstration server state with one active episode and an empty
corpus. -/
def demoState : ServerState := ⟨⟨[("ep_1", demoEpisode)]⟩, []⟩

/-- C7: for a successfully-ended registered episode whose extraction
fails (missing credential or call/parse failure), the corpus is left
unchanged — no experience record is persisted — and the reply text
explicitly reports the episode data as not saved. -/
theorem c7_extraction_failure_not_saved (st : ServerState) (eid result : String)
    (notes : Option String) (extract : ExtractOutcome) (now : PyTime) (m : ℕ)
    (emb : EmbedOutcome) (ep : Episode)
    (hep : st.tracker.get eid = some ep)
    (hfail : ∀ p k i, extract ≠ ExtractOutcome.ok p k i) :
    (end_episode st eid result true notes extract now m emb).2.store = st.store
    ∧ hasSub (end_episode st eid result true notes extract now m emb).1.toList
        "Your episode data was NOT saved".toList = true := by
  unfold EpisodeTracker.get at hep
  cases hfd : st.tracker.episodes.find? (fun p => p.1 == eid) with
  | none => rw [hfd] at hep; simp at hep
  | some p =>
    cases extract with
    | ok pat kws ins => exact absurd rfl (hfail pat kws ins)
    | valueError msg =>
      unfold end_episode EpisodeTracker.end1
      rw [hfd]
      exact ⟨rfl, configFailText_notSaved msg⟩
    | otherError ename msg =>
      unfold end_episode EpisodeTracker.end1
      rw [hfd]
      exact ⟨rfl, extractFailText_notSaved ename msg⟩

/-- Witness for C7: a missing credential at extraction time leaves the
corpus empty and the reply carries the not-saved notice. -/
theorem c7_extraction_failure_not_saved_witness :
    hasSub
        (end_episode demoState "ep_1" "done" true none
            (ExtractOutcome.valueError "OPENROUTER_API_KEY not set") c6time 0
            EmbedOutcome.noProvider).1.toList
        "Your episode data was NOT saved".toList = true :=
  (c7_extraction_failure_not_saved demoState "ep_1" "done" none
      (ExtractOutcome.valueError "OPENROUTER_API_KEY not set") c6time 0
      EmbedOutcome.noProvider demoEpisode rfl
      (by intro p k i h; exact ExtractOutcome.noConfusion h)).2

/-- C10: ending a registered episode with success removes it from the
tracker before extraction is attempted; when extraction then fails the
registry is not restored and nothing is persisted, so a later get
yields absent and a later end with the same id answers the not-found
reply. -/
theorem c10_failed_persistence_not_retryable (st : ServerState)
    (eid result result2 : String) (notes notes2 : Option String)
    (extract extract2 : ExtractOutcome) (now now2 : PyTime) (m m2 : ℕ)
    (emb emb2 : EmbedOutcome) (success2 : Bool) (ep : Episode)
    (hep : st.tracker.get eid = some ep)
    (hfail : ∀ p k i, extract ≠ ExtractOutcome.ok p k i) :
    ((end_episode st eid result true notes extract now m emb).2.tracker.get eid = none)
    ∧ (end_episode st eid result true notes extract now m emb).2.store = st.store
    ∧ (end_episode (end_episode st eid result true notes extract now m emb).2
          eid result2 success2 notes2 extract2 now2 m2 emb2).1 = notFoundText eid := by
  unfold EpisodeTracker.get at hep
  cases hfd : st.tracker.episodes.find? (fun p => p.1 == eid) with
  | none => rw [hfd] at hep; simp at hep
  | some p =>
    have hstep : (end_episode st eid result true notes extract now m emb).2
        = ⟨⟨st.tracker.episodes.filter (fun q => !(q.1 == eid))⟩, st.store⟩ := by
      cases extract with
      | ok pat kws ins => exact absurd rfl (hfail pat kws ins)
      | valueError msg =>
        unfold end_episode EpisodeTracker.end1
        rw [hfd]
        rfl
      | otherError ename msg =>
        unfold end_episode EpisodeTracker.end1
        rw [hfd]
        rfl
    have hgone :
        (st.tracker.episodes.filter (fun q => !(q.1 == eid))).find?
            (fun p => p.1 == eid) = none := by
      rw [List.find?_eq_none]
      intro x hx hpx
      have := (List.mem_filter.1 hx).2
      rw [hpx] at this
      simp at this
    refine ⟨?_, ?_, ?_⟩
    · rw [hstep]
      unfold EpisodeTracker.get
      simp only [hgone, Option.map_none']
    · rw [hstep]
    · rw [hstep]
      unfold end_episode EpisodeTracker.end1
      rw [hgone]

/-- Witness for C10: after a failed extraction the demonstration
episode is gone from the registry. -/
theorem c10_failed_persistence_not_retryable_witness :
    (end_episode demoState "ep_1" "done" true none
        (ExtractOutcome.otherError "RuntimeError" "API call failed") c6time 0
        EmbedOutcome.noProvider).2.tracker.get "ep_1" = none :=
  (c10_failed_persistence_not_retryable demoState "ep_1" "done" "again" none none
      (ExtractOutcome.otherError "RuntimeError" "API call failed")
      (ExtractOutcome.valueError "x") c6time c6time 0 0 EmbedOutcome.noProvider
      EmbedOutcome.noProvider true demoEpisode rfl
      (by intro p k i h; exact ExtractOutcome.noConfusion h)).1

/-- In a list sorted by modification time descending, if a member is
strictly newer than every other member, it is the unique head: taking
one element yields exactly it. -/
lemma take_one_of_max (l : List StoredFile) (x : StoredFile)
    (hs : l.Pairwise (fun a b => b.mtime ≤ a.mtime))
    (hx : x ∈ l) (hmax : ∀ y ∈ l, y ≠ x → y.mtime < x.mtime) :
    l.take 1 = [x] := by
  cases l with
  | nil => cases hx
  | cons h t =>
    have hhx : h = x := by
      by_contra hne
      have h1 : h.mtime < x.mtime := hmax h (List.mem_cons_self h t) hne
      have hxt : x ∈ t := by
        rcases List.mem_cons.1 hx with hh | ht
        · exact absurd hh.symm hne
        · exact ht
      have h2 : x.mtime ≤ h.mtime := (List.pairwise_cons.1 hs).1 x hxt
      omega
    simp [hhx]

/-- C8: saving a draft record and immediately listing the most recent
record returns exactly the saved record — the draft with the embedding
the save attached — and the returned record carries an embedding field
exactly when a provider was available at save time. Freshness of the
new file is the immediacy hypothesis: its modification time exceeds
every older file's. -/
theorem c8_save_get_recent_roundtrip (store : Store) (t : PyTime) (m : ℕ)
    (emb : EmbedOutcome) (r : Exp)
    (hdraft : r.embedding = none)
    (hfresh : ∀ f ∈ store, f.mtime < m) :
    ExperienceStorage.get_recent (ExperienceStorage.save store t m emb r).2 1
        = [applyEmbedding emb r]
    ∧ { applyEmbedding emb r with embedding := none } = r
    ∧ ((applyEmbedding emb r).embedding ≠ none ↔ emb ≠ EmbedOutcome.noProvider) := by
  have hstore : (ExperienceStorage.save store t m emb r).2
      = store.filter (fun f => f.name ≠ saveFilename t)
        ++ [⟨saveFilename t, applyEmbedding emb r, m⟩] := rfl
  refine ⟨?_, ?_, ?_⟩
  · set newf : StoredFile := ⟨saveFilename t, applyEmbedding emb r, m⟩ with hnewf
    set st1 : Store := store.filter (fun f => f.name ≠ saveFilename t) ++ [newf] with hst1
    have hmem : newf ∈ st1 := List.mem_append_right _ (List.mem_singleton_self _)
    haveI : IsTotal StoredFile (fun a b => b.mtime ≤ a.mtime) :=
      ⟨fun a b => Nat.le_total b.mtime a.mtime⟩
    haveI : IsTrans StoredFile (fun a b => b.mtime ≤ a.mtime) :=
      ⟨fun _ _ _ hab hbc => le_trans hbc hab⟩
    have hsorted := List.sorted_insertionSort (fun a b => b.mtime ≤ a.mtime) st1
    have hmem2 : newf ∈ st1.insertionSort (fun a b => b.mtime ≤ a.mtime) :=
      (List.mem_insertionSort _).2 hmem
    have hmax : ∀ y ∈ st1.insertionSort (fun a b => b.mtime ≤ a.mtime),
        y ≠ newf → y.mtime < newf.mtime := by
      intro y hy hne
      have hy2 : y ∈ st1 := (List.mem_insertionSort _).1 hy
      rcases List.mem_append.1 hy2 with hl | hr
      · exact hfresh y (List.mem_of_mem_filter hl)
      · exact absurd (List.mem_singleton.1 hr) hne
    have htake := take_one_of_max _ newf hsorted hmem2 hmax
    unfold ExperienceStorage.get_recent
    rw [hstore, htake]
    rfl
  · cases r
    cases emb <;> simp_all [applyEmbedding]
  · cases emb <;> simp [applyEmbedding, hdraft]

/-- Witness for C8: one stale file in the corpus, a failed embedding
call, a draft record. -/
theorem c8_save_get_recent_roundtrip_witness :
    ExperienceStorage.get_recent
        (ExperienceStorage.save [⟨"exp_old.json", c2rec1, 0⟩] c6time 1
          EmbedOutcome.failed c6Draft).2 1
      = [applyEmbedding EmbedOutcome.failed c6Draft] :=
  (c8_save_get_recent_roundtrip [⟨"exp_old.json", c2rec1, 0⟩] c6time 1
      EmbedOutcome.failed c6Draft rfl
      (by intro f hf; simp at hf; rw [hf]; exact Nat.zero_lt_one)).1

/-- C5: when the embedding provider is unavailable or the query
embedding fails (the query-embedding outcome is absent), a search with
semantic requested raises nothing and returns exactly the records
whose keyword score is positive, ranked by keyword boost alone
descending, truncated to the limit: the result length is the number of
positive-scoring records clamped to the limit; every returned record
is a stored record of positive keyword score at boost one; the result
is sorted by that score descending; and every positive-scoring stored
record is either returned or crowded out by a result already holding
`limit` records that each score at least as much. -/
theorem c5_degraded_search (store : Store) (query : String) (limit : ℕ) :
    (ExperienceStorage.search store query limit true none).length
        = min limit
            ((store.map (fun g => g.record)).filter
              (fun e => decide (0 < keywordSum 1 query e))).length
    ∧ (∀ e ∈ ExperienceStorage.search store query limit true none,
        e ∈ store.map (fun g => g.record) ∧ 0 < keywordSum 1 query e)
    ∧ List.Pairwise (fun a b => keywordSum 1 query b ≤ keywordSum 1 query a)
        (ExperienceStorage.search store query limit true none)
    ∧ (∀ f ∈ store, 0 < keywordSum 1 query f.record →
        f.record ∈ ExperienceStorage.search store query limit true none
        ∨ ((ExperienceStorage.search store query limit true none).length = limit
            ∧ ∀ e ∈ ExperienceStorage.search store query limit true none,
                keywordSum 1 query f.record ≤ keywordSum 1 query e)) := by
  have hsearch : ExperienceStorage.search store query limit true none
      = (((store.map (fun f => f.record)).filter
            (fun e => decide (0 < searchScore false query [] e))).insertionSort
          (fun a b =>
            searchScore false query [] b ≤ searchScore false query [] a)).take limit := rfl
  have hpred : (fun (e : Exp) => decide (0 < searchScore false query [] e))
      = (fun e => decide (0 < keywordSum 1 query e)) := by
    funext e
    rw [searchScore_false]
  set rel := fun a b : Exp =>
    searchScore false query [] b ≤ searchScore false query [] a with hrel
  set cands := (store.map (fun f => f.record)).filter
      (fun e => decide (0 < searchScore false query [] e)) with hcands
  haveI : IsTotal Exp rel :=
    ⟨fun a b => le_total (searchScore false query [] b) (searchScore false query [] a)⟩
  haveI : IsTrans Exp rel := ⟨fun _ _ _ hab hbc => le_trans hbc hab⟩
  have hslen : (cands.insertionSort rel).length = cands.length :=
    (List.perm_insertionSort rel cands).length_eq
  have hceq : ((store.map (fun g => g.record)).filter
      (fun e => decide (0 < keywordSum 1 query e))).length = cands.length := by
    rw [hcands, hpred]
  refine ⟨?_, ?_, ?_, ?_⟩
  · rw [hsearch, List.length_take, hslen, hceq]
  · intro e he
    rw [hsearch] at he
    have h1 : e ∈ cands :=
      (List.mem_insertionSort rel).1 ((List.take_sublist _ _).subset he)
    have h2 := List.mem_filter.1 h1
    refine ⟨h2.1, ?_⟩
    have h3 := of_decide_eq_true h2.2
    rwa [searchScore_false] at h3
  · rw [hsearch]
    have hsorted : List.Pairwise rel (cands.insertionSort rel) :=
      List.sorted_insertionSort rel cands
    have hp := hsorted.sublist (List.take_sublist limit _)
    exact hp.imp (fun hab => by
      rw [hrel] at hab
      rwa [searchScore_false, searchScore_false] at hab)
  · intro f hf hpos
    by_cases hmem : f.record ∈ ExperienceStorage.search store query limit true none
    · exact Or.inl hmem
    · have hfc : f.record ∈ cands := by
        rw [hcands]
        refine List.mem_filter.2 ⟨List.mem_map_of_mem _ hf, ?_⟩
        exact decide_eq_true (by rwa [searchScore_false])
      have hfs : f.record ∈ cands.insertionSort rel := (List.mem_insertionSort rel).2 hfc
      rw [hsearch] at hmem
      rw [← List.take_append_drop limit (cands.insertionSort rel)] at hfs
      have hfd : f.record ∈ (cands.insertionSort rel).drop limit := by
        rcases List.mem_append.1 hfs with h | h
        · exact absurd h hmem
        · exact h
      have hlt : limit < (cands.insertionSort rel).length := by
        have h0 := List.length_pos_of_mem hfd
        rw [List.length_drop] at h0
        omega
      refine Or.inr ⟨?_, ?_⟩
      · rw [hslen] at hlt
        rw [hsearch, List.length_take, hslen]
        omega
      · intro e he
        rw [hsearch] at he
        have hsorted : List.Pairwise rel (cands.insertionSort rel) :=
          List.sorted_insertionSort rel cands
        rw [← List.take_append_drop limit (cands.insertionSort rel)] at hsorted
        have h3 := (List.pairwise_append.1 hsorted).2.2 e he f.record hfd
        simp only [hrel] at h3
        rwa [searchScore_false, searchScore_false] at h3

/-- Witness for C5 at a concrete degraded call: the result length is
the clamped count of positive-scoring records. -/
theorem c5_degraded_search_witness :
    (ExperienceStorage.search [⟨"exp_a.json", c1Exp, 0⟩] "timeout errors" 5 true
        none).length
      = min 5
          ((([⟨"exp_a.json", c1Exp, 0⟩] : Store).map (fun g => g.record)).filter
            (fun e => decide (0 < keywordSum 1 "timeout errors" e))).length :=
  (c5_degraded_search [⟨"exp_a.json", c1Exp, 0⟩] "timeout errors" 5).1
